import Mathlib

/-!
Verification of the story-reply composer (`media_stories_reply.cpp`).

The C++ component is UI glue around a compose-controls widget. We embed its
state and the operations the claims mention:

* `ReplyAreaState` models the fields of `ReplyArea` that the claims talk
  about: `_data` (user pointer + story id), the compose-controls input text,
  the history currently set on the controls, the `_shownUserGuard` weak
  handle (modelled as a generation counter: invalidating it bumps the
  epoch), and the `_choosingAttach` flag.
* Operations return the updated state together with a list of `Effect`s,
  the externally visible calls (toasts, boxes, session-API sends, focus).
* `Sys` / `Sys.step` is the event machine for the asynchronous parts:
  attach requests, the delayed `chooseAttach` call, `show` navigation and
  file-dialog callback completion, which the temporal claims need.

External collaborators (`GetErrorTextForSending`, `Data::FileRestrictionError`,
translation strings) are inputs of the corresponding definitions: the
component only consumes the strings they produce.
-/

namespace Stories

/-- A `UserData*` pointer: `none` is null, `some u` carries the peer id. -/
abbrev UserRef := Option Nat

/-- `ReplyAreaData`: the (user, story id) record stored in `_data`. -/
structure ReplyAreaData where
  user : UserRef
  id : Nat
deriving DecidableEq, Repr

/-- The fields of `ReplyArea` the claims are about. `guardEpoch` models the
`_shownUserGuard` weak handle: `invalidate_weak_ptrs` bumps it, and a
callback captured at epoch `e` is alive iff `e` still equals the current
epoch. -/
structure ReplyAreaState where
  data : ReplyAreaData
  controlsText : String
  controlsHistory : Option Nat
  guardEpoch : Nat
  choosingAttach : Bool
deriving DecidableEq, Repr

/-- `user->owner().history(user)`: the conversation history keyed by the
user; null history for a null user. -/
def historyOf (user : UserRef) : Option Nat := user

/-- The state of `ReplyArea` right after construction: no data shown, empty
input, no history set on the controls, guard epoch 0, not choosing. -/
def initState : ReplyAreaState :=
  { data := { user := none, id := 0 }
    controlsText := ""
    controlsHistory := none
    guardEpoch := 0
    choosingAttach := false }

/-- `ReplyArea::show(ReplyAreaData data)`:
early-returns when `_data == data`; otherwise stores `data`; when the user
did not change it only clears the input (and only when a user is set); when
the user changed it invalidates `_shownUserGuard`, sets the controls history
to the new user's history and clears the input. -/
def ReplyArea.show (st : ReplyAreaState) (d : ReplyAreaData) : ReplyAreaState :=
  if st.data = d then st
  else if st.data.user = d.user then
    if d.user.isSome then { st with data := d, controlsText := "" }
    else { st with data := d }
  else
    { st with
        data := d
        guardEpoch := st.guardEpoch + 1
        controlsHistory := historyOf d.user
        controlsText := "" }

/-- `Api::SendOptions` (only the field this file reads). -/
structure SendOptions where
  scheduled : Nat
  silent : Bool
deriving DecidableEq, Repr

/-- `FullStoryId` as assigned in `prepareSendAction`. -/
structure StoryFullId where
  peer : Nat
  story : Nat
deriving DecidableEq, Repr

/-- `Api::SendAction` (the fields this file assigns). -/
structure SendAction where
  historyPeer : Nat
  options : SendOptions
  sendAs : Option Nat
  replyToStory : StoryFullId
  clearDraft : Bool
deriving DecidableEq, Repr

/-- Externally visible calls made by the component, in program order. -/
inductive Effect where
  | toast (msg : String)
  | fileSizeLimitBox (fileSize : Nat)
  | apiSendMessage (action : SendAction) (text : String) (webPageId : Nat)
  | hideLayer
  | hidePanels
  | setFocus
deriving DecidableEq, Repr

/-- Which effects hand something to the session messaging API. -/
def Effect.isApiSend : Effect → Bool
  | .apiSendMessage _ _ _ => true
  | _ => false

/-- `ReplyArea::prepareSendAction(options)`: requires `_data.user` non-null
(`Expects`), modelled by returning `none` on a null user. Builds the action
on `history(_data.user)` with `options.sendAs = _controls->sendAsPeer()` and
`replyTo.storyId = {_data.user->id, _data.id}`. -/
def ReplyArea.prepareSendAction (st : ReplyAreaState) (sendAs : Option Nat)
    (opts : SendOptions) : Option SendAction :=
  st.data.user.map fun u =>
    { historyPeer := u
      options := opts
      sendAs := sendAs
      replyToStory := { peer := u, story := st.data.id }
      clearDraft := true }

/-- `ReplyArea::send(options)`. `errF` is `GetErrorTextForSending` applied
to the composed text (an external collaborator); `webPageId` comes from the
controls. The code shows a toast when the error text is non-empty but does
NOT return: it still calls `sendMessage`, clears the input and runs
`finishSending` (hide panels, focus the wrap). -/
def ReplyArea.send (st : ReplyAreaState) (sendAs : Option Nat) (webPageId : Nat)
    (errF : String → String) (opts : SendOptions) :
    Option (ReplyAreaState × List Effect) :=
  (ReplyArea.prepareSendAction st sendAs opts).map fun action =>
    let text := st.controlsText
    let error := errF text
    ({ st with controlsText := "" },
      (if error = "" then [] else [Effect.toast error])
        ++ [Effect.apiSendMessage action text webPageId,
            Effect.hidePanels, Effect.setFocus])

/-- `Ui::PreparedList::Error`. -/
inductive PreparedError where
  | none | emptyFile | directory | nonLocalUrl | tooLargeFile
deriving DecidableEq, Repr

/-- One prepared file (only its size matters to this component). -/
structure PreparedFile where
  size : Nat
deriving DecidableEq, Repr

/-- `Ui::PreparedList` (the fields this file reads). -/
structure PreparedList where
  error : PreparedError
  errorData : String
  files : List PreparedFile
deriving DecidableEq, Repr

/-- The translation `lng_send_image_empty` with its name substitution; a
fixed non-empty template around the file name. -/
def tr_lng_send_image_empty (name : String) : String :=
  "Could not send empty file: " ++ name

/-- The sentinel the code uses to route the too-large case to the
file-size-limit box instead of a toast. -/
def tooLargeTag : String := "(toolarge)"

/-- The single user-facing notification `showSendingFilesError` produces. -/
inductive FilesErrorNotice where
  | noNotice
  | sizeLimitBox (fileSize : Nat)
  | toastNotice (msg : String)
deriving DecidableEq, Repr

/-- The error text computed inside `ReplyArea::showSendingFilesError`:
the recipient file-restriction error when present (an external collaborator,
passed in), else by `list.error`: empty for `None`, the
`lng_send_image_empty` toast text for empty-file/directory/non-local-url,
and the `"(toolarge)"` sentinel for `TooLargeFile`. -/
def ReplyArea.sendingFilesErrorText (restrictionError : Option String)
    (l : PreparedList) : String :=
  match restrictionError with
  | some e => e
  | none =>
    match l.error with
    | .none => ""
    | .emptyFile => tr_lng_send_image_empty l.errorData
    | .directory => tr_lng_send_image_empty l.errorData
    | .nonLocalUrl => tr_lng_send_image_empty l.errorData
    | .tooLargeFile => tooLargeTag

/-- `ReplyArea::showSendingFilesError(list, compress)`: returns `false` with
no notification when the computed text is empty; shows the
`FileSizeLimitBox` built from the last file's size when the text is the
too-large sentinel; otherwise shows the text as a toast. -/
def ReplyArea.showSendingFilesError (restrictionError : Option String)
    (l : PreparedList) : Bool × FilesErrorNotice :=
  let text := ReplyArea.sendingFilesErrorText restrictionError l
  if text = "" then (false, .noNotice)
  else if text = tooLargeTag then
    (true, .sizeLimitBox (l.files.getLastD { size := 0 }).size)
  else (true, .toastNotice text)

/-- `ChatHelpers::FileChosen` (sticker/GIF pick). -/
structure FileChosenData where
  document : Nat
deriving DecidableEq, Repr

/-- `ChatHelpers::PhotoChosen`. -/
structure PhotoChosenData where
  photo : Nat
deriving DecidableEq, Repr

/-- `ChatHelpers::InlineChosen`. -/
structure InlineChosenData where
  result : Nat
  bot : Nat
deriving DecidableEq, Repr

/-- The `fileChosen` handler wired in `initActions`: it only hides the
current layer; the `sendExistingDocument` call is commented out. -/
def ReplyArea.onFileChosen (_d : FileChosenData) : List Effect :=
  [Effect.hideLayer]

/-- The `photoChosen` handler wired in `initActions`: empty body, the
`sendExistingPhoto` call is commented out. -/
def ReplyArea.onPhotoChosen (_d : PhotoChosenData) : List Effect := []

/-- The `inlineResultChosen` handler wired in `initActions`: empty body,
the `sendInlineResult` call is commented out. -/
def ReplyArea.onInlineResultChosen (_d : InlineChosenData) : List Effect := []

/-- `Ui::InputField::MimeAction`. -/
inductive MimeAction where
  | check | insert
deriving DecidableEq, Repr

/-- A mime-data payload offered by drag-and-drop or paste. -/
structure MimeData where
  hasImage : Bool
  urls : List String
  text : String
deriving DecidableEq, Repr

/-- The mime-data hook installed by `initActions`: both branches return
`false` and do nothing; `checkSendingFiles` and `confirmSendingFiles`
are commented out. -/
def ReplyArea.mimeDataHook (_d : MimeData) (a : MimeAction) :
    Bool × List Effect :=
  match a with
  | .check => (false, [])
  | .insert => (false, [])

/-- Events of the asynchronous environment:
an attach button press (the `attachRequests` stream), the delayed
`chooseAttach` call firing (`restricted` is what
`Data::AnyFileRestrictionError` reports then), `show` navigation, and the
file dialog finishing for the i-th registered callback. -/
inductive Event where
  | attachRequest
  | delayedFire (restricted : Bool)
  | showData (d : ReplyAreaData)
  | dialogFinish (i : Nat)
deriving DecidableEq, Repr

/-- The component plus its pending asynchronous work: the number of queued
delayed `chooseAttach` calls, the open file-dialog callbacks as
(guard epoch at registration, user at registration), and for every dialog
callback whose guard was still valid when it ran, (user at registration,
user at run time). -/
structure Sys where
  st : ReplyAreaState
  pendingDelayed : Nat
  callbacks : List (Nat × UserRef)
  dialogRuns : List (UserRef × UserRef)
deriving DecidableEq, Repr

/-- The system right after the constructor ran. -/
def Sys.init : Sys :=
  { st := initState, pendingDelayed := 0, callbacks := [], dialogRuns := [] }

/-- One step of the event machine, following the handlers in `initActions`,
`chooseAttach` and `show`:
* `attachRequest` is filtered out while `_choosingAttach` is set; otherwise
  it sets the flag and queues a delayed `chooseAttach`;
* `delayedFire` consumes one queued call and runs `chooseAttach`: with no
  current user it returns at once (the flag stays set); otherwise it clears
  the flag, and unless the recipient is restricted it opens the file dialog,
  registering a callback guarded by the current `_shownUserGuard` epoch;
* `showData` applies `ReplyArea.show`;
* `dialogFinish i` completes the i-th dialog: its callback body runs only
  when its captured guard epoch is still the current one (`crl::guard`). -/
def Sys.step (s : Sys) : Event → Sys
  | .attachRequest =>
    if s.st.choosingAttach then s
    else
      { s with st := { s.st with choosingAttach := true }
               pendingDelayed := s.pendingDelayed + 1 }
  | .delayedFire restricted =>
    if s.pendingDelayed = 0 then s
    else
      let s1 := { s with pendingDelayed := s.pendingDelayed - 1 }
      match s1.st.data.user with
      | none => s1
      | some u =>
        let st2 := { s1.st with choosingAttach := false }
        if restricted then { s1 with st := st2 }
        else
          { s1 with st := st2
                    callbacks := (st2.guardEpoch, some u) :: s1.callbacks }
  | .showData d => { s with st := ReplyArea.show s.st d }
  | .dialogFinish i =>
    match s.callbacks[i]? with
    | none => s
    | some c =>
      let s1 := { s with callbacks := s.callbacks.eraseIdx i }
      if c.1 = s.st.guardEpoch then
        { s1 with dialogRuns := (c.2, s.st.data.user) :: s1.dialogRuns }
      else s1

/-- Run a list of events from a state. -/
def Sys.run (s : Sys) : List Event → Sys
  | [] => s
  | e :: evs => Sys.run (s.step e) evs

/-- States reachable from the freshly constructed component. -/
inductive Reachable : Sys → Prop where
  | init : Reachable Sys.init
  | step {s : Sys} (e : Event) : Reachable s → Reachable (s.step e)

lemma show_data (st : ReplyAreaState) (d : ReplyAreaData) :
    (ReplyArea.show st d).data = d := by
  unfold ReplyArea.show
  split_ifs with h1 h2 h3
  · exact h1
  · rfl
  · rfl
  · rfl

lemma show_user (st : ReplyAreaState) (d : ReplyAreaData) :
    (ReplyArea.show st d).data.user = d.user := by
  rw [show_data]

lemma show_choosingAttach (st : ReplyAreaState) (d : ReplyAreaData) :
    (ReplyArea.show st d).choosingAttach = st.choosingAttach := by
  unfold ReplyArea.show
  split_ifs <;> rfl

lemma show_epoch_of_user_eq (st : ReplyAreaState) (d : ReplyAreaData)
    (h : st.data.user = d.user) :
    (ReplyArea.show st d).guardEpoch = st.guardEpoch := by
  unfold ReplyArea.show
  by_cases h1 : st.data = d
  · rw [if_pos h1]
  · rw [if_neg h1, if_pos h]
    by_cases h3 : d.user.isSome
    · rw [if_pos h3]
    · rw [if_neg h3]

lemma show_epoch_of_user_ne (st : ReplyAreaState) (d : ReplyAreaData)
    (h : st.data.user ≠ d.user) :
    (ReplyArea.show st d).guardEpoch = st.guardEpoch + 1 := by
  unfold ReplyArea.show
  have h1 : st.data ≠ d := fun he => h (congrArg ReplyAreaData.user he)
  rw [if_neg h1, if_neg h]

lemma tr_lng_send_image_empty_length (name : String) :
    (tr_lng_send_image_empty name).length = 27 + name.length := by
  have h : ("Could not send empty file: " : String).length = 27 := rfl
  rw [tr_lng_send_image_empty, String.length_append, h]

lemma tr_lng_send_image_empty_ne_blank (name : String) :
    tr_lng_send_image_empty name ≠ "" := by
  intro h
  have h2 := congrArg String.length h
  rw [tr_lng_send_image_empty_length] at h2
  have h3 : ("" : String).length = 0 := rfl
  rw [h3] at h2
  omega

lemma tr_lng_send_image_empty_ne_tag (name : String) :
    tr_lng_send_image_empty name ≠ tooLargeTag := by
  intro h
  have h2 := congrArg String.length h
  rw [tr_lng_send_image_empty_length] at h2
  have h3 : tooLargeTag.length = 10 := rfl
  rw [h3] at h2
  omega

lemma tooLargeTag_ne_blank : tooLargeTag ≠ "" := by
  decide

/-- At most one delayed `chooseAttach` call is ever queued, and whenever one
is queued the `_choosingAttach` flag is set. -/
def attachInv (s : Sys) : Prop :=
  s.pendingDelayed ≤ 1 ∧ (s.pendingDelayed = 1 → s.st.choosingAttach = true)

lemma step_dialogFinish_st (s : Sys) (i : Nat) :
    (s.step (Event.dialogFinish i)).st = s.st := by
  rcases hc : s.callbacks[i]? with _ | c
  · simp [Sys.step, hc]
  · by_cases he : c.1 = s.st.guardEpoch <;> simp [Sys.step, hc, he]

lemma step_dialogFinish_pending (s : Sys) (i : Nat) :
    (s.step (Event.dialogFinish i)).pendingDelayed = s.pendingDelayed := by
  rcases hc : s.callbacks[i]? with _ | c
  · simp [Sys.step, hc]
  · by_cases he : c.1 = s.st.guardEpoch <;> simp [Sys.step, hc, he]

lemma attachInv_init : attachInv Sys.init := by
  constructor
  · decide
  · intro h
    exact absurd h (by decide)

lemma attachInv_step (s : Sys) (e : Event) (h : attachInv s) :
    attachInv (s.step e) := by
  obtain ⟨h1, h2⟩ := h
  cases e with
  | attachRequest =>
    by_cases hc : s.st.choosingAttach
    · simpa [Sys.step, hc] using ⟨h1, h2⟩
    · have hp : s.pendingDelayed = 0 := by
        by_contra hne
        have hp1 : s.pendingDelayed = 1 := by omega
        exact hc (by simpa using h2 hp1)
      constructor
      · simp [Sys.step, hc, hp]
      · intro _
        simp [Sys.step, hc]
  | delayedFire restricted =>
    by_cases hp : s.pendingDelayed = 0
    · simpa [Sys.step, hp] using ⟨h1, h2⟩
    · rcases hu : s.st.data.user with _ | u
      · constructor
        · simp [Sys.step, hp, hu]
          omega
        · intro hcontra
          simp [Sys.step, hp, hu] at hcontra
          omega
      · by_cases hr : restricted
        · constructor
          · simp [Sys.step, hp, hu, hr]
            omega
          · intro hcontra
            simp [Sys.step, hp, hu, hr] at hcontra
            omega
        · constructor
          · simp [Sys.step, hp, hu, hr]
            omega
          · intro hcontra
            simp [Sys.step, hp, hu, hr] at hcontra
            omega
  | showData d =>
    constructor
    · simpa [Sys.step] using h1
    · intro hpd
      simp [Sys.step] at hpd ⊢
      rw [show_choosingAttach]
      exact h2 hpd
  | dialogFinish i =>
    constructor
    · rw [step_dialogFinish_pending]
      exact h1
    · intro hpd
      rw [step_dialogFinish_pending] at hpd
      rw [step_dialogFinish_st]
      exact h2 hpd

lemma attachInv_reachable (s : Sys) (h : Reachable s) : attachInv s := by
  induction h with
  | init => exact attachInv_init
  | step e _ ih => exact attachInv_step _ e ih

/-- Every registered dialog callback carries a guard epoch no newer than the
current one, and when its epoch is still current, the user it was created
under is still the current user. -/
def guardInv (s : Sys) : Prop :=
  ∀ p ∈ s.callbacks,
    p.1 ≤ s.st.guardEpoch ∧ (p.1 = s.st.guardEpoch → p.2 = s.st.data.user)

lemma guardInv_init : guardInv Sys.init := by
  intro p hp
  simp [Sys.init] at hp

lemma guardInv_step (s : Sys) (e : Event) (h : guardInv s) :
    guardInv (s.step e) := by
  cases e with
  | attachRequest =>
    intro p hp
    by_cases hc : s.st.choosingAttach
    · simp [Sys.step, hc] at hp ⊢
      exact h p hp
    · simp [Sys.step, hc] at hp ⊢
      exact h p hp
  | delayedFire restricted =>
    intro p hp
    by_cases hpd : s.pendingDelayed = 0
    · simp [Sys.step, hpd] at hp ⊢
      exact h p hp
    · rcases hu : s.st.data.user with _ | u
      · simp [Sys.step, hpd, hu] at hp ⊢
        have hold := h p hp
        rw [hu] at hold
        exact hold
      · by_cases hr : restricted
        · simp [Sys.step, hpd, hu, hr] at hp ⊢
          have hold := h p hp
          rw [hu] at hold
          exact hold
        · simp [Sys.step, hpd, hu, hr] at hp ⊢
          rcases hp with hp | hp
          · subst hp
            exact ⟨le_refl _, fun _ => rfl⟩
          · have hold := h p hp
            rw [hu] at hold
            exact hold
  | showData d =>
    intro p hp
    simp [Sys.step] at hp ⊢
    have hold := h p hp
    by_cases hu : s.st.data.user = d.user
    · rw [show_epoch_of_user_eq s.st d hu, show_user]
      exact ⟨hold.1, fun he => (hold.2 he).trans hu⟩
    · rw [show_epoch_of_user_ne s.st d hu]
      constructor
      · omega
      · intro he
        omega
  | dialogFinish i =>
    intro p hp
    rw [step_dialogFinish_st]
    rcases hc : s.callbacks[i]? with _ | c
    · simp [Sys.step, hc] at hp
      exact h p hp
    · by_cases he : c.1 = s.st.guardEpoch
      · simp [Sys.step, hc, he] at hp
        exact h p (List.mem_of_mem_eraseIdx hp)
      · simp [Sys.step, hc, he] at hp
        exact h p (List.mem_of_mem_eraseIdx hp)

lemma guardInv_reachable (s : Sys) (h : Reachable s) : guardInv s := by
  induction h with
  | init => exact guardInv_init
  | step e _ ih => exact guardInv_step _ e ih

lemma stuck_step (s : Sys) (e : Event)
    (h1 : s.st.choosingAttach = true) (h2 : s.pendingDelayed = 0) :
    (s.step e).st.choosingAttach = true ∧ (s.step e).pendingDelayed = 0 := by
  cases e with
  | attachRequest => simp [Sys.step, h1, h2]
  | delayedFire restricted => simp [Sys.step, h2, h1]
  | showData d =>
    constructor
    · simp [Sys.step]
      rw [show_choosingAttach]
      exact h1
    · simpa [Sys.step] using h2
  | dialogFinish i =>
    rw [step_dialogFinish_st, step_dialogFinish_pending]
    exact ⟨h1, h2⟩

lemma step_attachRequest_of_flag (s : Sys) (h : s.st.choosingAttach = true) :
    s.step Event.attachRequest = s := by
  simp [Sys.step, h]

lemma stuck_run (s : Sys) (evs : List Event)
    (h1 : s.st.choosingAttach = true) (h2 : s.pendingDelayed = 0) :
    (Sys.run s evs).st.choosingAttach = true
    ∧ (Sys.run s evs).pendingDelayed = 0 := by
  induction evs generalizing s with
  | nil => exact ⟨h1, h2⟩
  | cons e evs ih =>
    have hstep := stuck_step s e h1 h2
    exact ih (s.step e) hstep.1 hstep.2

/-- Claim C1 (code bug, failing input): user 7 is set, story 42, composed
text "hello", and `GetErrorTextForSending` reports the non-empty error
"restricted". `ReplyArea::send` shows the error toast but does NOT abort:
there is no early return, so the message is still handed to
`session().api().sendMessage`, the input is cleared and `finishSending`
runs — contradicting the claim (and spec section 7: "show it, abort the
action"). `sendingFilesConfirmed` and `chooseAttach` do return after
showing their errors; the slip is in `send` alone. -/
theorem send_error_not_aborted :
    ReplyArea.send
        { data := { user := some 7, id := 42 }
          controlsText := "hello"
          controlsHistory := some 7
          guardEpoch := 0
          choosingAttach := false }
        none 0 (fun _ => "restricted") { scheduled := 0, silent := false }
      = some
        ({ data := { user := some 7, id := 42 }
           controlsText := ""
           controlsHistory := some 7
           guardEpoch := 0
           choosingAttach := false },
         [Effect.toast "restricted",
          Effect.apiSendMessage
            { historyPeer := 7
              options := { scheduled := 0, silent := false }
              sendAs := none
              replyToStory := { peer := 7, story := 42 }
              clearDraft := true } "hello" 0,
          Effect.hidePanels, Effect.setFocus]) := by
  decide

/-- Claim C2 (counterexample): at concrete chosen items, the `fileChosen`
handler only hides the current layer and produces no session-API send, and
the `photoChosen` and `inlineResultChosen` handlers do nothing at all — the
`sendExistingDocument` / `sendExistingPhoto` / `sendInlineResult` calls are
commented out — so the chosen item is not forwarded to the session API as
the claim states. -/
theorem chosen_not_forwarded_cex :
    ReplyArea.onFileChosen { document := 5 } = [Effect.hideLayer]
    ∧ (ReplyArea.onFileChosen { document := 5 }).filter Effect.isApiSend = []
    ∧ ReplyArea.onPhotoChosen { photo := 6 } = []
    ∧ ReplyArea.onInlineResultChosen { result := 1, bot := 2 } = [] := by
  decide

/-- Claim C2 (amended): for every sticker/GIF, photo or inline-bot result
picked in the compose controls, the component does NOT forward it to the
session API: the `fileChosen` handler only hides the current layer and the
`photoChosen` / `inlineResultChosen` handlers are empty (the forwarding
code is commented out). -/
theorem chosen_handlers_amended (f : FileChosenData) (p : PhotoChosenData)
    (i : InlineChosenData) :
    ReplyArea.onFileChosen f = [Effect.hideLayer]
    ∧ (ReplyArea.onFileChosen f).filter Effect.isApiSend = []
    ∧ ReplyArea.onPhotoChosen p = []
    ∧ ReplyArea.onInlineResultChosen i = [] :=
  ⟨rfl, rfl, rfl, rfl⟩

/-- Claim C3 (counterexample): at a concrete payload that does carry
sendable content (an image plus a local file url), the mime-data hook
returns `false` for the Check action and returns `false` with no
`confirmSendingFiles` call for the Insert action — both handler bodies are
commented out — so the hook neither reports sendable files nor forwards the
payload as the claim states. -/
theorem mime_hook_cex :
    ReplyArea.mimeDataHook
        { hasImage := true, urls := ["file:a.png"], text := "" }
        MimeAction.check = (false, [])
    ∧ ReplyArea.mimeDataHook
        { hasImage := true, urls := ["file:a.png"], text := "" }
        MimeAction.insert = (false, []) := by
  decide

/-- Claim C3 (amended): for every mime-data payload and either action, the
installed hook declines: Check always returns `false` and Insert always
returns `false` without forwarding anything to the file-sending
confirmation flow (`checkSendingFiles` / `confirmSendingFiles` are
commented out in the hook). -/
theorem mime_hook_amended (d : MimeData) (a : MimeAction) :
    ReplyArea.mimeDataHook d a = (false, []) := by
  cases a <;> rfl

/-- Claim C4 (counterexample): with no current user and input text "draft",
calling `show` with a record that differs only in the story id (user still
null) stores the new record but does NOT clear the input: the code only
clears in the unchanged-user branch when a user is set. -/
theorem show_no_clear_cex :
    ({ data := { user := none, id := 0 }
       controlsText := "draft"
       controlsHistory := none
       guardEpoch := 0
       choosingAttach := false } : ReplyAreaState).data
        ≠ ({ user := none, id := 1 } : ReplyAreaData)
    ∧ (ReplyArea.show
        { data := { user := none, id := 0 }
          controlsText := "draft"
          controlsHistory := none
          guardEpoch := 0
          choosingAttach := false }
        { user := none, id := 1 }).controlsText = "draft" := by
  decide

/-- Claim C4 (amended): for every `show(data)` with `data` different from
the stored record, the record is replaced wholesale by `data` and the
controls' history targets the new user's history (null when there is no
user; the stated invariant holds in every reachable state since the
controls start with no history). The input widget is cleared whenever the
user changed, and also whenever the new user is set; it is left untouched
exactly when the user is unchanged and null. -/
theorem show_update_amended (st : ReplyAreaState) (d : ReplyAreaData)
    (hne : st.data ≠ d) (hinv : st.controlsHistory = historyOf st.data.user) :
    (ReplyArea.show st d).data = d
    ∧ (ReplyArea.show st d).controlsHistory = historyOf d.user
    ∧ (st.data.user ≠ d.user → (ReplyArea.show st d).controlsText = "")
    ∧ (d.user.isSome = true → (ReplyArea.show st d).controlsText = "") := by
  refine ⟨show_data st d, ?_, ?_, ?_⟩
  · by_cases hu : st.data.user = d.user
    · unfold ReplyArea.show
      rw [if_neg hne, if_pos hu]
      by_cases h3 : d.user.isSome
      · rw [if_pos h3]
        show st.controlsHistory = historyOf d.user
        rw [hinv, hu]
      · rw [if_neg h3]
        show st.controlsHistory = historyOf d.user
        rw [hinv, hu]
    · unfold ReplyArea.show
      rw [if_neg hne, if_neg hu]
  · intro hu
    unfold ReplyArea.show
    rw [if_neg hne, if_neg hu]
  · intro hs
    unfold ReplyArea.show
    by_cases hu : st.data.user = d.user
    · rw [if_neg hne, if_pos hu, if_pos hs]
    · rw [if_neg hne, if_neg hu]

/-- Claim C4 (witness): the amended statement applied to the fresh state
and a record with user 2, story 3. -/
theorem show_update_amended_witness :
    (initState.data ≠ ({ user := some 2, id := 3 } : ReplyAreaData)
      ∧ initState.controlsHistory = historyOf initState.data.user)
    ∧ ((ReplyArea.show initState { user := some 2, id := 3 }).data
          = ({ user := some 2, id := 3 } : ReplyAreaData)
      ∧ (ReplyArea.show initState { user := some 2, id := 3 }).controlsHistory
          = historyOf (some 2)
      ∧ (initState.data.user ≠ (some 2 : UserRef) →
          (ReplyArea.show initState { user := some 2, id := 3 }).controlsText = "")
      ∧ ((some 2 : UserRef).isSome = true →
          (ReplyArea.show initState { user := some 2, id := 3 }).controlsText = "")) :=
  ⟨⟨by decide, by decide⟩,
   show_update_amended initState { user := some 2, id := 3 } (by decide) (by decide)⟩

/-- Claim C5 (counterexample): from the freshly built component (no current
user), an attach request is accepted — flag set, delayed call queued — and
then the delayed `chooseAttach` runs: it consumed the queued call
(`pendingDelayed` is back to 0) yet `_choosingAttach` is still `true`, so
"the flag is reset to false when the delayed chooseAttach call runs" fails
as stated. -/
theorem attach_flag_not_reset_cex :
    (Sys.run Sys.init [Event.attachRequest, Event.delayedFire false]).pendingDelayed = 0
    ∧ (Sys.run Sys.init
        [Event.attachRequest, Event.delayedFire false]).st.choosingAttach = true := by
  decide

/-- Claim C5 (amended): an attach request is accepted only while
`_choosingAttach` is `false` and accepting one sets it to `true`; the
delayed `chooseAttach` call resets it to `false` whenever a current user is
set (with no user it returns early and the flag stays set); consequently,
in every reachable state at most one delayed `chooseAttach` invocation is
pending, and whenever one is pending the flag is set, so a second
file-chooser request can never be queued concurrently. -/
theorem attach_guard_amended (s : Sys) (r : Bool) (u : Nat) (h : Reachable s) :
    s.pendingDelayed ≤ 1
    ∧ (s.pendingDelayed = 1 → s.st.choosingAttach = true)
    ∧ (s.st.choosingAttach = true → s.step Event.attachRequest = s)
    ∧ (s.st.choosingAttach = false →
        (s.step Event.attachRequest).st.choosingAttach = true
        ∧ (s.step Event.attachRequest).pendingDelayed = s.pendingDelayed + 1)
    ∧ (s.pendingDelayed ≠ 0 → s.st.data.user = some u →
        (s.step (Event.delayedFire r)).st.choosingAttach = false) := by
  have hi := attachInv_reachable s h
  refine ⟨hi.1, hi.2, ?_, ?_, ?_⟩
  · intro hc
    simp [Sys.step, hc]
  · intro hc
    constructor <;> simp [Sys.step, hc]
  · intro hpd hu
    by_cases hr : r <;> simp [Sys.step, hpd, hu, hr]

/-- The reachable state used to witness the amended C5 statement: navigate
to user 1, then accept one attach request. -/
def attachGuardWitnessState : Sys :=
  Sys.run Sys.init [Event.showData { user := some 1, id := 5 }, Event.attachRequest]

/-- Claim C5 (witness): the amended statement applied at a concrete
reachable state with user 1 shown and an attach request just accepted. -/
theorem attach_guard_amended_witness :
    Reachable attachGuardWitnessState
    ∧ (attachGuardWitnessState.pendingDelayed ≤ 1
      ∧ (attachGuardWitnessState.pendingDelayed = 1 →
          attachGuardWitnessState.st.choosingAttach = true)
      ∧ (attachGuardWitnessState.st.choosingAttach = true →
          attachGuardWitnessState.step Event.attachRequest = attachGuardWitnessState)
      ∧ (attachGuardWitnessState.st.choosingAttach = false →
          (attachGuardWitnessState.step Event.attachRequest).st.choosingAttach = true
          ∧ (attachGuardWitnessState.step Event.attachRequest).pendingDelayed
              = attachGuardWitnessState.pendingDelayed + 1)
      ∧ (attachGuardWitnessState.pendingDelayed ≠ 0 →
          attachGuardWitnessState.st.data.user = some 1 →
          (attachGuardWitnessState.step (Event.delayedFire false)).st.choosingAttach
            = false)) :=
  ⟨Reachable.step Event.attachRequest
      (Reachable.step (Event.showData { user := some 1, id := 5 }) Reachable.init),
   attach_guard_amended attachGuardWitnessState false 1
      (Reachable.step Event.attachRequest
        (Reachable.step (Event.showData { user := some 1, id := 5 }) Reachable.init))⟩

/-- Claim C6: in every reachable state, a file-dialog callback registered
under user `uA` whose user is no longer the current one has a guard epoch
different from the current `_shownUserGuard` epoch — `show` invalidated the
weak handle exactly when the user changed — so `crl::guard` blocks it: by
`Sys.step`, a `dialogFinish` only runs the callback body when the captured
epoch equals the current one. -/
theorem stale_dialog_callback_blocked (s : Sys) (e : Nat) (uA : UserRef)
    (h : Reachable s) (hmem : (e, uA) ∈ s.callbacks)
    (hne : uA ≠ s.st.data.user) :
    e ≠ s.st.guardEpoch := by
  intro heq
  exact hne ((guardInv_reachable s h (e, uA) hmem).2 heq)

/-- The reachable state used to witness C6: navigate to user 1, open the
file dialog there, then navigate to user 2 while the dialog is up. -/
def staleDialogState : Sys :=
  Sys.run Sys.init
    [Event.showData { user := some 1, id := 5 },
     Event.attachRequest,
     Event.delayedFire false,
     Event.showData { user := some 2, id := 6 }]

/-- Claim C6 (witness): in the concrete trace, the dialog callback
registered under user 1 at guard epoch 1 is still pending after navigating
to user 2, and its epoch differs from the current epoch (2), so it can
never run. -/
theorem stale_dialog_callback_blocked_witness :
    Reachable staleDialogState
    ∧ ((1 : Nat), (some 1 : UserRef)) ∈ staleDialogState.callbacks
    ∧ (some 1 : UserRef) ≠ staleDialogState.st.data.user
    ∧ (1 : Nat) ≠ staleDialogState.st.guardEpoch :=
  ⟨Reachable.step (Event.showData { user := some 2, id := 6 })
      (Reachable.step (Event.delayedFire false)
        (Reachable.step Event.attachRequest
          (Reachable.step (Event.showData { user := some 1, id := 5 })
            Reachable.init))),
   by decide,
   by decide,
   stale_dialog_callback_blocked staleDialogState 1 (some 1)
     (Reachable.step (Event.showData { user := some 2, id := 6 })
       (Reachable.step (Event.delayedFire false)
         (Reachable.step Event.attachRequest
           (Reachable.step (Event.showData { user := some 1, id := 5 })
             Reachable.init))))
     (by decide) (by decide)⟩

/-- Claim C7: `showSendingFilesError` returns `false` iff there is no
recipient file-restriction error and the list error is `None` (then no
notification is shown). Otherwise it returns `true` after exactly one
notification: with no restriction error and a `TooLargeFile` list error,
the file-size-limit box built from the last file's size; with an
empty-file / directory / non-local-url list error, the
`lng_send_image_empty` toast; with a restriction error, that error as a
toast. Hypotheses: the external restriction-error text, when present, is
neither empty nor the internal `"(toolarge)"` sentinel. -/
theorem sending_files_error_spec (re : Option String) (l : PreparedList)
    (m : String) (h1 : re ≠ some "") (h2 : re ≠ some tooLargeTag) :
    ((ReplyArea.showSendingFilesError re l).1 = false
        ↔ (re = none ∧ l.error = PreparedError.none))
    ∧ ((ReplyArea.showSendingFilesError re l).1 = false →
        (ReplyArea.showSendingFilesError re l).2 = FilesErrorNotice.noNotice)
    ∧ (re = none → l.error = PreparedError.tooLargeFile →
        (ReplyArea.showSendingFilesError re l).2
          = FilesErrorNotice.sizeLimitBox (l.files.getLastD { size := 0 }).size)
    ∧ (re = none →
        (l.error = PreparedError.emptyFile ∨ l.error = PreparedError.directory
          ∨ l.error = PreparedError.nonLocalUrl) →
        (ReplyArea.showSendingFilesError re l).2
          = FilesErrorNotice.toastNotice (tr_lng_send_image_empty l.errorData))
    ∧ (re = some m →
        (ReplyArea.showSendingFilesError re l).2 = FilesErrorNotice.toastNotice m) := by
  rcases re with _ | s
  · cases herr : l.error <;>
      simp [ReplyArea.showSendingFilesError, ReplyArea.sendingFilesErrorText, herr,
        tr_lng_send_image_empty_ne_blank, tr_lng_send_image_empty_ne_tag,
        tooLargeTag_ne_blank]
  · have hs1 : s ≠ "" := fun hh => h1 (by rw [hh])
    have hs2 : s ≠ tooLargeTag := fun hh => h2 (by rw [hh])
    simp [ReplyArea.showSendingFilesError, ReplyArea.sendingFilesErrorText, hs1, hs2]

/-- Claim C7 (witness): the statement applied with a concrete restriction
error string and a list with no list-level error: it returns `true` with
exactly that toast. -/
theorem sending_files_error_spec_witness :
    ((some "no media allowed" : Option String) ≠ some ""
      ∧ (some "no media allowed" : Option String) ≠ some tooLargeTag)
    ∧ (((ReplyArea.showSendingFilesError (some "no media allowed")
            { error := PreparedError.none, errorData := "", files := [] }).1 = false
        ↔ ((some "no media allowed" : Option String) = none
            ∧ ({ error := PreparedError.none, errorData := "", files := [] }
                : PreparedList).error = PreparedError.none))
      ∧ ((ReplyArea.showSendingFilesError (some "no media allowed")
            { error := PreparedError.none, errorData := "", files := [] }).1 = false →
          (ReplyArea.showSendingFilesError (some "no media allowed")
            { error := PreparedError.none, errorData := "", files := [] }).2
              = FilesErrorNotice.noNotice)
      ∧ ((some "no media allowed" : Option String) = none →
          ({ error := PreparedError.none, errorData := "", files := [] }
              : PreparedList).error = PreparedError.tooLargeFile →
          (ReplyArea.showSendingFilesError (some "no media allowed")
            { error := PreparedError.none, errorData := "", files := [] }).2
              = FilesErrorNotice.sizeLimitBox
                  ((({ error := PreparedError.none, errorData := "", files := [] }
                      : PreparedList).files.getLastD { size := 0 }).size))
      ∧ ((some "no media allowed" : Option String) = none →
          (({ error := PreparedError.none, errorData := "", files := [] }
              : PreparedList).error = PreparedError.emptyFile
            ∨ ({ error := PreparedError.none, errorData := "", files := [] }
                : PreparedList).error = PreparedError.directory
            ∨ ({ error := PreparedError.none, errorData := "", files := [] }
                : PreparedList).error = PreparedError.nonLocalUrl) →
          (ReplyArea.showSendingFilesError (some "no media allowed")
            { error := PreparedError.none, errorData := "", files := [] }).2
              = FilesErrorNotice.toastNotice
                  (tr_lng_send_image_empty
                    (({ error := PreparedError.none, errorData := "", files := [] }
                        : PreparedList).errorData)))
      ∧ ((some "no media allowed" : Option String) = some "no media allowed" →
          (ReplyArea.showSendingFilesError (some "no media allowed")
            { error := PreparedError.none, errorData := "", files := [] }).2
              = FilesErrorNotice.toastNotice "no media allowed")) :=
  ⟨⟨by decide, by decide⟩,
   sending_files_error_spec (some "no media allowed")
     { error := PreparedError.none, errorData := "", files := [] }
     "no media allowed" (by decide) (by decide)⟩

/-- Claim C8: with a current user `u` set, `send` builds the send action on
`history(u)` with the controls' send-as peer and
`replyTo.storyId = {u, story id}`, hands the composed text (and web page
id) to `sendMessage` on the session API, then clears the input and runs
`finishSending`: hide panels and focus the viewer wrap. The toast prefix is
empty exactly when the validation error text is empty. -/
theorem send_builds_action_and_finishes (st : ReplyAreaState) (u : Nat)
    (sendAs : Option Nat) (webPageId : Nat) (errF : String → String)
    (opts : SendOptions) (hu : st.data.user = some u) :
    ReplyArea.send st sendAs webPageId errF opts =
      some ({ st with controlsText := "" },
        (if errF st.controlsText = "" then []
          else [Effect.toast (errF st.controlsText)])
          ++ [Effect.apiSendMessage
                { historyPeer := u
                  options := opts
                  sendAs := sendAs
                  replyToStory := { peer := u, story := st.data.id }
                  clearDraft := true } st.controlsText webPageId,
              Effect.hidePanels, Effect.setFocus]) := by
  unfold ReplyArea.send ReplyArea.prepareSendAction
  rw [hu]
  rfl

/-- The concrete state used to witness C8: user 7 shown with story 42 and
composed text "hi". -/
def sendWitnessState : ReplyAreaState :=
  { data := { user := some 7, id := 42 }
    controlsText := "hi"
    controlsHistory := some 7
    guardEpoch := 0
    choosingAttach := false }

/-- Claim C8 (witness): the statement applied at the concrete state with no
validation error: the message goes to the API with reply target
story {7, 42} and the input ends cleared. -/
theorem send_builds_action_and_finishes_witness :
    sendWitnessState.data.user = some 7
    ∧ ReplyArea.send sendWitnessState none 9 (fun _ => "")
        { scheduled := 0, silent := false } =
      some ({ sendWitnessState with controlsText := "" },
        [Effect.apiSendMessage
            { historyPeer := 7
              options := { scheduled := 0, silent := false }
              sendAs := none
              replyToStory := { peer := 7, story := 42 }
              clearDraft := true } "hi" 9,
         Effect.hidePanels, Effect.setFocus]) :=
  ⟨by decide,
   send_builds_action_and_finishes sendWitnessState 7 none 9 (fun _ => "")
     { scheduled := 0, silent := false } (by decide)⟩

/-- Claim C9: from a state where an attach request was just accepted
(`_choosingAttach = true`, one delayed call queued) and no current user is
set, the delayed `chooseAttach` returns before resetting the flag: the flag
is still set right after it runs, remains set under every subsequent event
sequence, and any later attach request is filtered out (the step is a
no-op). -/
theorem attach_stuck_without_user (s : Sys) (r : Bool) (evs : List Event)
    (hflag : s.st.choosingAttach = true) (hpend : s.pendingDelayed = 1)
    (huser : s.st.data.user = none) :
    ((s.step (Event.delayedFire r)).st.choosingAttach = true)
    ∧ ((Sys.run (s.step (Event.delayedFire r)) evs).st.choosingAttach = true)
    ∧ (Sys.run (s.step (Event.delayedFire r)) evs).step Event.attachRequest
        = Sys.run (s.step (Event.delayedFire r)) evs := by
  have hstep : (s.step (Event.delayedFire r)).st.choosingAttach = true
      ∧ (s.step (Event.delayedFire r)).pendingDelayed = 0 := by
    constructor
    · simp [Sys.step, hpend, huser, hflag]
    · simp [Sys.step, hpend, huser]
  have hrun := stuck_run _ evs hstep.1 hstep.2
  exact ⟨hstep.1, hrun.1, step_attachRequest_of_flag _ hrun.1⟩

/-- The state used to witness C9: the fresh component (no user) right after
accepting one attach request. -/
def attachStuckWitnessState : Sys := Sys.step Sys.init Event.attachRequest

/-- Claim C9 (witness): the statement applied at the concrete stuck state,
with a subsequent navigation to user 3 and one more attach press. -/
theorem attach_stuck_without_user_witness :
    (attachStuckWitnessState.st.choosingAttach = true
      ∧ attachStuckWitnessState.pendingDelayed = 1
      ∧ attachStuckWitnessState.st.data.user = none)
    ∧ (((attachStuckWitnessState.step (Event.delayedFire false)).st.choosingAttach = true)
      ∧ ((Sys.run (attachStuckWitnessState.step (Event.delayedFire false))
            [Event.showData { user := some 3, id := 1 },
             Event.attachRequest]).st.choosingAttach = true)
      ∧ (Sys.run (attachStuckWitnessState.step (Event.delayedFire false))
            [Event.showData { user := some 3, id := 1 },
             Event.attachRequest]).step Event.attachRequest
          = Sys.run (attachStuckWitnessState.step (Event.delayedFire false))
              [Event.showData { user := some 3, id := 1 },
               Event.attachRequest]) :=
  ⟨⟨by decide, by decide, by decide⟩,
   attach_stuck_without_user attachStuckWitnessState false
     [Event.showData { user := some 3, id := 1 }, Event.attachRequest]
     (by decide) (by decide) (by decide)⟩

/-- Claim C10: calling `show` with the currently stored (user, story id)
record is a no-op: the early-return on `_data == data` leaves the whole
state — stored record, input text, controls history, guard epoch (the
validity of `_shownUserGuard`) and attach flag — unchanged. -/
theorem show_same_data_noop (st : ReplyAreaState) (d : ReplyAreaData)
    (h : st.data = d) : ReplyArea.show st d = st := by
  unfold ReplyArea.show
  rw [if_pos h]

/-- The concrete state used to witness C10: user 4, story 9, with a typed
draft in the input. -/
def showNoopWitnessState : ReplyAreaState :=
  { data := { user := some 4, id := 9 }
    controlsText := "typed draft"
    controlsHistory := some 4
    guardEpoch := 3
    choosingAttach := false }

/-- Claim C10 (witness): `show` with the identical record at the concrete
state returns the state unchanged. -/
theorem show_same_data_noop_witness :
    showNoopWitnessState.data = ({ user := some 4, id := 9 } : ReplyAreaData)
    ∧ ReplyArea.show showNoopWitnessState { user := some 4, id := 9 }
        = showNoopWitnessState :=
  ⟨by decide,
   show_same_data_noop showNoopWitnessState { user := some 4, id := 9 } (by decide)⟩

end Stories
